import Mathlib

/-!
Verification development for the friend-relationship subsystem of the
DailyVerse backend (Go). The friend store (Firestore collection keyed by
the composite document id senderEmail ++ "_" ++ recipientEmail) is
embedded as an association list from document id to record; the
repository layer (firestore_friend_repository.go, and the behaviourally
identical in-memory mock in tests/mocks/mock_friend_repository.go)
and the service layer (internal/services/friend_service.go) are embedded
as pure functions over that store. Store I/O failures (network errors,
StoreError in the specification taxonomy) are not modelled: every store
primitive totally succeeds, as the in-memory reference implementation
does. A service call that returns an error in this model leaves the
store unchanged, because only the Except.ok branch carries a new store.
-/

set_option autoImplicit false

namespace DailyVerse

/-- Friend record, from pkg/models/models.go (struct Friend): the sender
email, the recipient email and the status string, which is "pending" or
"accepted" in every record the service writes. -/
structure Friend where
  Email : String
  FriendEmail : String
  Status : String
deriving DecidableEq

/-- User record, from pkg/models/models.go (struct User). Only the
fields the friend subsystem reads are embedded: Username, the lowercase
username used for case-insensitive lookup, Email, Country and City
(the last four are what GetPendingFriendRequests copies into a
UserSummary). The auth-only fields (Password, OTP, OTPExpiresAt,
IsVerified, ImageURL, FirstName, LastName) are never read by the friend
service and are omitted. -/
structure User where
  Username : String
  UsernameLower : String
  Email : String
  Country : String
  City : String
deriving DecidableEq

/-- Profile summary returned by GetPendingFriendRequests, from
pkg/models/models.go (struct UserSummary). -/
structure UserSummary where
  Username : String
  Email : String
  Country : String
  City : String
deriving DecidableEq

/-- The friends collection: association list from Firestore document id
to record. Firestore assigns at most one document per id; the store
operations below preserve key uniqueness and every reachable store has
it, but no theorem here needs it as a global invariant. -/
def FriendStore : Type := List (String × Friend)

/-- Composite document id used by every repository method:
senderEmail ++ "_" ++ recipientEmail. -/
def docID (senderEmail recipientEmail : String) : String :=
  senderEmail ++ "_" ++ recipientEmail

/-- Firestore Doc(id).Set: overwrite the document with this id, creating
it if absent. -/
def setDoc (store : FriendStore) (id : String) (f : Friend) : FriendStore :=
  (store.filter (fun e => e.1 ≠ id)) ++ [(id, f)]

/-- Firestore Doc(id).Get: point lookup, none when the document is
absent. -/
def getDoc (store : FriendStore) (id : String) : Option Friend :=
  (store.find? (fun e => e.1 = id)).map (fun e => e.2)

/-- Firestore Doc(id).Delete: remove the document; deleting an absent
document is not an error (both the Firestore client and the mock
repository return nil unconditionally). -/
def deleteDoc (store : FriendStore) (id : String) : FriendStore :=
  store.filter (fun e => e.1 ≠ id)

/-- Character class of the local part of utils.IsValidEmail, by
codepoint: a-z A-Z 0-9 and . ! # $ % & apostrophe * + / = ? ^ _
backquote lbrace pipe rbrace tilde hyphen. -/
def isLocalChar (c : Char) : Bool :=
  c.isAlphanum ||
    (c.toNat ∈ [46, 33, 35, 36, 37, 38, 39, 42, 43, 47, 61, 63, 94, 95,
                96, 123, 124, 125, 126, 45])

/-- Character class of a domain label of utils.IsValidEmail:
a-z A-Z 0-9 and hyphen (codepoint 45). -/
def isDomainChar (c : Char) : Bool :=
  c.isAlphanum || c.toNat == 45

/-- Split a character list on every occurrence of the separator,
returning the (possibly empty) pieces between occurrences; always
returns at least one piece. -/
def splitOnChar (sep : Char) : List Char → List (List Char)
  | [] => [[]]
  | c :: rest =>
    let r := splitOnChar sep rest
    if c == sep then [] :: r
    else
      match r with
      | [] => [[c]]
      | h :: t => (c :: h) :: t

/-- Domain of utils.IsValidEmail: one or more dot-separated labels, each
nonempty and made of domain characters. -/
def domainOk (d : List Char) : Bool :=
  (splitOnChar '.' d).all (fun lab => !lab.isEmpty && lab.all isDomainChar)

/-- utils.IsValidEmail from pkg/utils/utils.go: the anchored regular
expression demands a nonempty local part over the local character class
(which excludes the at sign), one at sign, and a dot-separated domain of
nonempty alphanumeric-or-hyphen labels; equivalently the string splits
at a unique at sign into such a local part and domain. -/
def isValidEmail (s : String) : Bool :=
  match splitOnChar '@' s.data with
  | [lp, dp] => !lp.isEmpty && lp.all isLocalChar && domainOk dp
  | _ => false

/-- The users collection: list of user documents. CreateUser keys each
document by the user email, so lookup by email compares the Email
field. -/
def UserDir : Type := List User

/-- FirestoreUserRepository.GetUserByEmail: point lookup of the user
document keyed by the email; none models the Firestore NotFound
error. -/
def GetUserByEmail (users : UserDir) (email : String) : Option User :=
  users.find? (fun u => u.Email == email)

/-- Lowercasing as strings.ToLower, restricted to the ASCII usernames
this system stores (Char.toLower agrees with Go on ASCII). -/
def toLowerStr (s : String) : String :=
  ⟨s.data.map Char.toLower⟩

/-- FirestoreUserRepository.GetUserByUsername: query the users
collection for UsernameLower equal to the lowercased argument, first
match only; none models the iterator.Done error when no user
matches. -/
def GetUserByUsername (users : UserDir) (username : String) : Option User :=
  users.find? (fun u => u.UsernameLower == toLowerStr username)

/-- FirestoreFriendRepository.CreateFriendRequest: Set of the document
keyed by docID of the sender and recipient emails (silent overwrite on
an existing key). -/
def CreateFriendRequest (store : FriendStore) (friend : Friend) : FriendStore :=
  setDoc store (docID friend.Email friend.FriendEmail) friend

/-- FirestoreFriendRepository.GetFriendRequest: point lookup by the
composite document id; returns none (not an error) when absent. -/
def GetFriendRequest (store : FriendStore) (senderEmail recipientEmail : String) :
    Option Friend :=
  getDoc store (docID senderEmail recipientEmail)

/-- FirestoreFriendRepository.UpdateFriendRequest at its single call
site, where the updates map is exactly Status maps-to the given status:
Set with MergeAll merges the Status field into the existing document,
or, when the document is absent, creates it with only that field, the
participant fields reading back as the Go zero value (empty string). -/
def UpdateFriendRequestStatus (store : FriendStore)
    (senderEmail recipientEmail status : String) : FriendStore :=
  match getDoc store (docID senderEmail recipientEmail) with
  | some f => setDoc store (docID senderEmail recipientEmail) { f with Status := status }
  | none => setDoc store (docID senderEmail recipientEmail)
      { Email := "", FriendEmail := "", Status := status }

/-- FirestoreFriendRepository.DeleteFriendRequest: delete the document
by composite id; never an error, in particular not when the document
does not exist. -/
def DeleteFriendRequest (store : FriendStore) (senderEmail recipientEmail : String) :
    FriendStore :=
  deleteDoc store (docID senderEmail recipientEmail)

/-- FirestoreFriendRepository.GetFriends: two scans of the collection,
records with Email equal to the user and Status accepted, then records
with FriendEmail equal to the user and Status accepted, concatenated in
that order. -/
def GetFriends (store : FriendStore) (userEmail : String) : List Friend :=
  ((store.map (fun e => e.2)).filter
      (fun f => f.Email == userEmail && f.Status == "accepted"))
    ++ ((store.map (fun e => e.2)).filter
      (fun f => f.FriendEmail == userEmail && f.Status == "accepted"))

/-- FirestoreFriendRepository.GetPendingFriendRequests: scan for records
with FriendEmail equal to the user and Status pending. -/
def GetPendingFriendRequestsRepo (store : FriendStore) (userEmail : String) :
    List Friend :=
  (store.map (fun e => e.2)).filter
    (fun f => f.FriendEmail == userEmail && f.Status == "pending")

/-- Error outcomes of the friend service, one constructor per distinct
fmt.Errorf message in internal/services/friend_service.go. The dead
store-failure messages (Failed to send friend request, Failed to accept
friend request, Failed to remove friend, Failed to decline friend
request, Failed to cancel friend request) have no constructor because
the embedded store never fails. -/
inductive FriendErr where
  /-- The message User not found. -/
  | userNotFound
  /-- The message You cannot send a friend request to yourself. -/
  | selfRequest
  /-- The message Friend request already exists or you are already friends. -/
  | duplicateRequest
  /-- The message Friend request not found. -/
  | requestNotFound
deriving DecidableEq

/-- Target resolution of FriendService.SendFriendRequest: classify the
identifier with utils.IsValidEmail and look it up by email or by
username accordingly. -/
def resolveSendTarget (users : UserDir) (identifier : String) : Option User :=
  if isValidEmail identifier then GetUserByEmail users identifier
  else GetUserByUsername users identifier

/-- Sender resolution of FriendService.AcceptFriendRequest: try the
username lookup first, then fall back to the email lookup. -/
def resolveAcceptSender (users : UserDir) (identifier : String) : Option User :=
  match GetUserByUsername users identifier with
  | some u => some u
  | none => GetUserByEmail users identifier

/-- FriendService.SendFriendRequest: resolve the target by classified
identifier, reject self-requests, reject when a record for the ordered
pair acting-to-target already exists in either status, otherwise create
the pending record. -/
def SendFriendRequest (users : UserDir) (store : FriendStore)
    (userEmail identifier : String) : Except FriendErr FriendStore :=
  match resolveSendTarget users identifier with
  | none => .error .userNotFound
  | some friendUser =>
    let friendEmail := friendUser.Email
    if userEmail == friendEmail then .error .selfRequest
    else
      match GetFriendRequest store userEmail friendEmail with
      | some _ => .error .duplicateRequest
      | none => .ok (CreateFriendRequest store
          { Email := userEmail, FriendEmail := friendEmail, Status := "pending" })

/-- FriendService.AcceptFriendRequest: resolve the sender
(username-then-email fallback), look up the record sender-to-acting,
fail when absent, otherwise merge Status accepted into that document. -/
def AcceptFriendRequest (users : UserDir) (store : FriendStore)
    (userEmail identifier : String) : Except FriendErr FriendStore :=
  match resolveAcceptSender users identifier with
  | none => .error .userNotFound
  | some senderUser =>
    let senderEmail := senderUser.Email
    match GetFriendRequest store senderEmail userEmail with
    | none => .error .requestNotFound
    | some _ => .ok (UpdateFriendRequestStatus store senderEmail userEmail "accepted")

/-- FriendService.GetFriendsList: fetch the accepted relationships
involving the user, take the counterpart email of each (FriendEmail
when the user is the sender, Email otherwise), resolve it to a full
user profile, and silently skip relationships whose counterpart does
not resolve. -/
def GetFriendsList (users : UserDir) (store : FriendStore) (userEmail : String) :
    List User :=
  (GetFriends store userEmail).filterMap (fun rel =>
    let friendEmail := if rel.Email == userEmail then rel.FriendEmail else rel.Email
    GetUserByEmail users friendEmail)

/-- FriendService.RemoveFriend: resolve the target by username only,
then delete the relationship document in both directions. The two
deletes never fail in either reference store implementation, so the
both-deletes-failed error branch of the Go code is dead and the call
succeeds whenever the username resolves. -/
def RemoveFriend (users : UserDir) (store : FriendStore)
    (userEmail username : String) : Except FriendErr FriendStore :=
  match GetUserByUsername users username with
  | none => .error .userNotFound
  | some friendUser =>
    let friendEmail := friendUser.Email
    .ok (DeleteFriendRequest (DeleteFriendRequest store userEmail friendEmail)
      friendEmail userEmail)

/-- FriendService.GetPendingFriendRequests: fetch the pending records
directed at the user, resolve each sender email to a profile, copy the
public fields into a UserSummary, and silently skip unresolvable
senders. -/
def GetPendingFriendRequests (users : UserDir) (store : FriendStore)
    (userEmail : String) : List UserSummary :=
  (GetPendingFriendRequestsRepo store userEmail).filterMap (fun fr =>
    (GetUserByEmail users fr.Email).map (fun u =>
      { Username := u.Username, Email := u.Email, Country := u.Country,
        City := u.City }))

/-- FriendService.DeclineFriendRequest: resolve the sender by username
only, then delete the document sender-to-acting unconditionally; the
delete never fails, so the call succeeds whenever the username
resolves, also when no such record exists. -/
def DeclineFriendRequest (users : UserDir) (store : FriendStore)
    (userEmail username : String) : Except FriendErr FriendStore :=
  match GetUserByUsername users username with
  | none => .error .userNotFound
  | some senderUser =>
    .ok (DeleteFriendRequest store senderUser.Email userEmail)

/-- FriendService.CancelFriendRequest: resolve the recipient by
username only, then delete the document acting-to-recipient
unconditionally; the delete never fails, so the call succeeds whenever
the username resolves. -/
def CancelFriendRequest (users : UserDir) (store : FriendStore)
    (userEmail username : String) : Except FriendErr FriendStore :=
  match GetUserByUsername users username with
  | none => .error .userNotFound
  | some recipientUser =>
    .ok (DeleteFriendRequest store userEmail recipientUser.Email)

/-! Concrete demonstration data used by the witness theorems: two users
with distinct emails and usernames, and the stores the lifecycle
produces from them. -/

/-- Demo user alice. -/
def uAlice : User :=
  { Username := "alice", UsernameLower := "alice", Email := "alice@x.com",
    Country := "NO", City := "Oslo" }

/-- Demo user bob. -/
def uBob : User :=
  { Username := "bob", UsernameLower := "bob", Email := "bob@x.com",
    Country := "NO", City := "Bergen" }

/-- Demo users collection holding alice and bob. -/
def demoUsers : UserDir := [uAlice, uBob]

/-- The pending record alice-to-bob. -/
def pendAB : Friend :=
  { Email := "alice@x.com", FriendEmail := "bob@x.com", Status := "pending" }

/-- The accepted record alice-to-bob. -/
def accAB : Friend :=
  { Email := "alice@x.com", FriendEmail := "bob@x.com", Status := "accepted" }

/-- Store holding exactly the pending record alice-to-bob under its
composite document id. -/
def pendStoreAB : FriendStore := [(docID "alice@x.com" "bob@x.com", pendAB)]

/-- Store holding exactly the accepted record alice-to-bob under its
composite document id. -/
def accStoreAB : FriendStore := [(docID "alice@x.com" "bob@x.com", accAB)]

/-! Helper lemmas about the store primitives. -/

/-- Point lookup on a cons cell. -/
theorem getDoc_cons (e : String × Friend) (t : FriendStore) (i : String) :
    getDoc (e :: t) i = if e.1 = i then some e.2 else getDoc t i := by
  by_cases h : e.1 = i <;> simp [getDoc, List.find?_cons, h]

/-- Deletion on a cons cell. -/
theorem deleteDoc_cons (e : String × Friend) (t : FriendStore) (j : String) :
    deleteDoc (e :: t) j = if e.1 = j then deleteDoc t j else e :: deleteDoc t j := by
  by_cases h : e.1 = j <;> simp [deleteDoc, List.filter_cons, h]

/-- Overwrite on a cons cell. -/
theorem setDoc_cons (e : String × Friend) (t : FriendStore) (j : String) (f : Friend) :
    setDoc (e :: t) j f = if e.1 = j then setDoc t j f else e :: setDoc t j f := by
  by_cases h : e.1 = j <;> simp [setDoc, List.filter_cons, h]

/-- Lookup after deletion: the deleted key reads as absent, every other
key is untouched. -/
theorem getDoc_deleteDoc (store : FriendStore) (i j : String) :
    getDoc (deleteDoc store j) i = if i = j then none else getDoc store i := by
  induction store with
  | nil => by_cases h : i = j <;> simp [getDoc, deleteDoc, h]
  | cons e t ih =>
    rw [deleteDoc_cons]
    by_cases hej : e.1 = j
    · rw [if_pos hej, ih, getDoc_cons]
      split_ifs with hij hei
      · rfl
      · exact absurd (hei.symm.trans hej) hij
      · rfl
    · rw [if_neg hej, getDoc_cons, getDoc_cons, ih]
      split_ifs with hei hij hij
      · exact absurd (hei.trans hij) hej
      · rfl
      · rfl
      · rfl

/-- Lookup after overwrite: the written key reads back the new record,
every other key is untouched. -/
theorem getDoc_setDoc (store : FriendStore) (i j : String) (f : Friend) :
    getDoc (setDoc store j f) i = if i = j then some f else getDoc store i := by
  induction store with
  | nil =>
    simp only [setDoc, List.filter_nil, List.nil_append, getDoc_cons]
    split_ifs with h1 h2 <;> simp_all [getDoc]
  | cons e t ih =>
    rw [setDoc_cons]
    by_cases hej : e.1 = j
    · rw [if_pos hej, ih, getDoc_cons]
      split_ifs with hij hei
      · rfl
      · exact absurd (hei.symm.trans hej) hij
      · rfl
    · rw [if_neg hej, getDoc_cons, getDoc_cons, ih]
      split_ifs with hei hij hij
      · exact absurd (hei.trans hij) hej
      · rfl
      · rfl
      · rfl

/-- A send whose target resolves, is not the acting user, and has no
existing acting-to-target record creates exactly the pending record
under the composite key. -/
theorem SendFriendRequest_eq_ok (users : UserDir) (store : FriendStore)
    (userEmail ident : String) (uT : User)
    (hres : resolveSendTarget users ident = some uT)
    (hne : userEmail ≠ uT.Email)
    (hno : GetFriendRequest store userEmail uT.Email = none) :
    SendFriendRequest users store userEmail ident =
      Except.ok (setDoc store (docID userEmail uT.Email)
        { Email := userEmail, FriendEmail := uT.Email, Status := "pending" }) := by
  have hb : (userEmail == uT.Email) = false := beq_eq_false_iff_ne.mpr hne
  unfold SendFriendRequest
  rw [hres]
  simp [hb, hno, CreateFriendRequest]

/-- An accept whose sender resolves and whose sender-to-acting record
exists overwrites that record with the same participants and status
accepted. -/
theorem AcceptFriendRequest_eq_ok (users : UserDir) (store : FriendStore)
    (userEmail ident : String) (uS : User) (f : Friend)
    (hres : resolveAcceptSender users ident = some uS)
    (hget : GetFriendRequest store uS.Email userEmail = some f) :
    AcceptFriendRequest users store userEmail ident =
      Except.ok (setDoc store (docID uS.Email userEmail)
        { f with Status := "accepted" }) := by
  unfold AcceptFriendRequest UpdateFriendRequestStatus
  rw [hres]
  have hget2 : getDoc store (docID uS.Email userEmail) = some f := hget
  simp [hget, hget2]

/-- C1: with A and B distinct resolvable identities and an initially
empty store, a successful sendFriendRequest from A targeting B followed
by a successful acceptFriendRequest by B naming A leaves exactly the
single accepted record keyed (A, B), and the accepted-relationship scan
makes the friendship visible from both sides: getFriendsList of A
contains the profile of B and getFriendsList of B contains the profile
of A, each resolved as the counterpart of that one record. -/
theorem c1_accept_visible_both_sides
    (users : UserDir) (uA uB : User) (idB idA : String) (s1 s2 : FriendStore)
    (hne : uA.Email ≠ uB.Email)
    (hresB : resolveSendTarget users idB = some uB)
    (hresA : resolveAcceptSender users idA = some uA)
    (hAe : GetUserByEmail users uA.Email = some uA)
    (hBe : GetUserByEmail users uB.Email = some uB)
    (hsend : SendFriendRequest users [] uA.Email idB = Except.ok s1)
    (hacc : AcceptFriendRequest users s1 uB.Email idA = Except.ok s2) :
    s2 = [(docID uA.Email uB.Email,
      { Email := uA.Email, FriendEmail := uB.Email, Status := "accepted" })] ∧
    uB ∈ GetFriendsList users s2 uA.Email ∧
    uA ∈ GetFriendsList users s2 uB.Email := by
  have hsend2 := SendFriendRequest_eq_ok users [] uA.Email idB uB hresB hne
    (by simp [GetFriendRequest, getDoc])
  have hs1 : s1 = [(docID uA.Email uB.Email,
      { Email := uA.Email, FriendEmail := uB.Email, Status := "pending" })] := by
    have := Except.ok.inj ((hsend.symm).trans hsend2)
    rw [this]
    simp [setDoc]
  subst hs1
  have hacc2 := AcceptFriendRequest_eq_ok users
    [(docID uA.Email uB.Email,
      { Email := uA.Email, FriendEmail := uB.Email, Status := "pending" })]
    uB.Email idA uA
    { Email := uA.Email, FriendEmail := uB.Email, Status := "pending" } hresA
    (by unfold GetFriendRequest; rw [getDoc_cons]; simp)
  have hs2 : s2 = [(docID uA.Email uB.Email,
      { Email := uA.Email, FriendEmail := uB.Email, Status := "accepted" })] := by
    have := Except.ok.inj ((hacc.symm).trans hacc2)
    rw [this]
    simp [setDoc, List.filter_cons]
  subst hs2
  refine ⟨rfl, ?_, ?_⟩
  · simp [GetFriendsList, GetFriends, hBe, hne, Ne.symm hne, beq_self_eq_true,
      beq_eq_false_iff_ne.mpr (Ne.symm hne)]
  · simp [GetFriendsList, GetFriends, hAe, hne, Ne.symm hne, beq_self_eq_true,
      beq_eq_false_iff_ne.mpr hne, beq_eq_false_iff_ne.mpr (Ne.symm hne)]

/-- Witness for C1 at the demo users: alice sends to bob by handle on
the empty store, bob accepts by handle, and each sees the other in the
friends list over the resulting single accepted record. -/
theorem c1_witness :
    accStoreAB = [(docID "alice@x.com" "bob@x.com",
      { Email := "alice@x.com", FriendEmail := "bob@x.com", Status := "accepted" })] ∧
    uBob ∈ GetFriendsList demoUsers accStoreAB "alice@x.com" ∧
    uAlice ∈ GetFriendsList demoUsers accStoreAB "bob@x.com" :=
  c1_accept_visible_both_sides demoUsers uAlice uBob "bob" "alice"
    pendStoreAB accStoreAB (by decide) rfl rfl rfl rfl rfl rfl

/-- C2 counterexample: on an empty store, with a resolvable target
handle, removeFriend succeeds even though neither directional record
existed, refuting the claim that it fails exactly when neither
direction existed. Both underlying deletes are idempotent and return no
error, so the both-deletes-failed branch of the Go code never fires. -/
theorem c2_counterexample :
    RemoveFriend demoUsers [] "alice@x.com" "bob" = Except.ok [] ∧
    GetFriendRequest [] "alice@x.com" "bob@x.com" = none ∧
    GetFriendRequest [] "bob@x.com" "alice@x.com" = none :=
  ⟨rfl, rfl, rfl⟩

/-- C2 amended: for every resolvable target handle, removeFriend
deletes the relationship documents in both directions and always
succeeds — also when neither direction existed — because the store
delete is idempotent and never errors; afterwards neither directional
record is present. It fails only when the handle does not resolve. -/
theorem c2_remove_deletes_both_directions
    (users : UserDir) (store : FriendStore) (userEmail username : String) (uT : User)
    (hres : GetUserByUsername users username = some uT) :
    RemoveFriend users store userEmail username =
      Except.ok (DeleteFriendRequest (DeleteFriendRequest store userEmail uT.Email)
        uT.Email userEmail) ∧
    GetFriendRequest (DeleteFriendRequest (DeleteFriendRequest store userEmail uT.Email)
      uT.Email userEmail) userEmail uT.Email = none ∧
    GetFriendRequest (DeleteFriendRequest (DeleteFriendRequest store userEmail uT.Email)
      uT.Email userEmail) uT.Email userEmail = none := by
  refine ⟨?_, ?_, ?_⟩
  · unfold RemoveFriend
    rw [hres]
  · unfold GetFriendRequest DeleteFriendRequest
    rw [getDoc_deleteDoc]
    by_cases h : docID userEmail uT.Email = docID uT.Email userEmail
    · simp [h]
    · simp [h, getDoc_deleteDoc]
  · unfold GetFriendRequest DeleteFriendRequest
    rw [getDoc_deleteDoc]
    simp

/-- Witness for C2: removing bob as a friend of alice from the store
holding the accepted record deletes it in both directions and
succeeds. -/
theorem c2_witness :
    RemoveFriend demoUsers accStoreAB "alice@x.com" "bob" =
      Except.ok (DeleteFriendRequest (DeleteFriendRequest accStoreAB "alice@x.com" "bob@x.com")
        "bob@x.com" "alice@x.com") ∧
    GetFriendRequest (DeleteFriendRequest (DeleteFriendRequest accStoreAB "alice@x.com" "bob@x.com")
      "bob@x.com" "alice@x.com") "alice@x.com" "bob@x.com" = none ∧
    GetFriendRequest (DeleteFriendRequest (DeleteFriendRequest accStoreAB "alice@x.com" "bob@x.com")
      "bob@x.com" "alice@x.com") "bob@x.com" "alice@x.com" = none :=
  c2_remove_deletes_both_directions demoUsers accStoreAB "alice@x.com" "bob" uBob rfl

/-- C3 counterexample: the canonical address of bob resolves by email,
yet removeFriend, declineFriendRequest and cancelFriendRequest all
report UserNotFound when given that address, because all three resolve
their target by username lookup only. This refutes the claim that a
canonical email address resolves in those operations just as a handle
does. -/
theorem c3_counterexample :
    GetUserByEmail demoUsers "bob@x.com" = some uBob ∧
    GetUserByEmail demoUsers "alice@x.com" = some uAlice ∧
    RemoveFriend demoUsers accStoreAB "alice@x.com" "bob@x.com" =
      Except.error FriendErr.userNotFound ∧
    DeclineFriendRequest demoUsers pendStoreAB "bob@x.com" "alice@x.com" =
      Except.error FriendErr.userNotFound ∧
    CancelFriendRequest demoUsers pendStoreAB "alice@x.com" "bob@x.com" =
      Except.error FriendErr.userNotFound :=
  ⟨rfl, rfl, rfl, rfl, rfl⟩

/-- C3 amended: identifier resolution differs per operation. Send
classifies the identifier by the address format check and resolves by
email or by handle accordingly; accept tries the handle lookup first
and falls back to the email lookup; removeFriend, declineFriendRequest
and cancelFriendRequest resolve by handle lookup only, so they report
UserNotFound exactly when the handle lookup fails — a canonical email
address is not accepted there unless some user carries it as a
handle. -/
theorem c3_resolution_per_operation
    (users : UserDir) (store : FriendStore) (userEmail ident : String) :
    (RemoveFriend users store userEmail ident = Except.error FriendErr.userNotFound ↔
      GetUserByUsername users ident = none) ∧
    (DeclineFriendRequest users store userEmail ident = Except.error FriendErr.userNotFound ↔
      GetUserByUsername users ident = none) ∧
    (CancelFriendRequest users store userEmail ident = Except.error FriendErr.userNotFound ↔
      GetUserByUsername users ident = none) ∧
    (isValidEmail ident = true →
      resolveSendTarget users ident = GetUserByEmail users ident) ∧
    (isValidEmail ident = false →
      resolveSendTarget users ident = GetUserByUsername users ident) ∧
    (GetUserByUsername users ident = none →
      resolveAcceptSender users ident = GetUserByEmail users ident) ∧
    (∀ u, GetUserByUsername users ident = some u →
      resolveAcceptSender users ident = some u) := by
  refine ⟨?_, ?_, ?_, ?_, ?_, ?_, ?_⟩
  · cases h : GetUserByUsername users ident <;> simp [RemoveFriend, h]
  · cases h : GetUserByUsername users ident <;> simp [DeclineFriendRequest, h]
  · cases h : GetUserByUsername users ident <;> simp [CancelFriendRequest, h]
  · intro hv
    simp [resolveSendTarget, hv]
  · intro hv
    simp [resolveSendTarget, hv]
  · intro h
    simp [resolveAcceptSender, h]
  · intro u h
    simp [resolveAcceptSender, h]

/-- Witness for C3: on the demo directory, the send path resolves an
email-form identifier by email lookup and the accept path resolves a
handle directly. -/
theorem c3_witness :
    resolveSendTarget demoUsers "bob@x.com" = GetUserByEmail demoUsers "bob@x.com" ∧
    resolveAcceptSender demoUsers "alice" = some uAlice :=
  ⟨(c3_resolution_per_operation demoUsers [] "" "bob@x.com").2.2.2.1 (by decide),
   (c3_resolution_per_operation demoUsers [] "" "alice").2.2.2.2.2.2 uAlice rfl⟩

/-- C4: when a record for the ordered pair acting-to-target already
exists in the store — in either status, since the existence check does
not read the status — sendFriendRequest fails with the duplicate error
and, the error branch carrying no store, creates no record. The second
of two immediate identical sends is the instance exercised by the
witness. -/
theorem c4_duplicate_request_rejected
    (users : UserDir) (store : FriendStore) (userEmail ident : String)
    (uT : User) (f : Friend)
    (hres : resolveSendTarget users ident = some uT)
    (hne : userEmail ≠ uT.Email)
    (hex : GetFriendRequest store userEmail uT.Email = some f) :
    SendFriendRequest users store userEmail ident =
      Except.error FriendErr.duplicateRequest := by
  have hb : (userEmail == uT.Email) = false := beq_eq_false_iff_ne.mpr hne
  unfold SendFriendRequest
  rw [hres]
  simp [hb, hex]

/-- Witness for C4: the first send from alice to bob on the empty store
succeeds and yields the pending store; repeating the same send on that
store fails with the duplicate error. -/
theorem c4_witness :
    SendFriendRequest demoUsers [] "alice@x.com" "bob" = Except.ok pendStoreAB ∧
    SendFriendRequest demoUsers pendStoreAB "alice@x.com" "bob" =
      Except.error FriendErr.duplicateRequest :=
  ⟨rfl, c4_duplicate_request_rejected demoUsers pendStoreAB "alice@x.com" "bob"
    uBob pendAB rfl (by decide) rfl⟩

/-- C5: when the target identifier resolves to the acting user — via
the email branch or the username branch of the classifier alike — send
fails with the self-request error, and the error branch creates no
record. -/
theorem c5_self_request_rejected
    (users : UserDir) (store : FriendStore) (userEmail ident : String) (uT : User)
    (hres : resolveSendTarget users ident = some uT)
    (hself : uT.Email = userEmail) :
    SendFriendRequest users store userEmail ident =
      Except.error FriendErr.selfRequest := by
  unfold SendFriendRequest
  rw [hres]
  simp [hself]

/-- Witness for C5: alice sending to herself fails the same way whether
she is named by canonical address or by handle. -/
theorem c5_witness :
    SendFriendRequest demoUsers [] "alice@x.com" "alice@x.com" =
      Except.error FriendErr.selfRequest ∧
    SendFriendRequest demoUsers [] "alice@x.com" "alice" =
      Except.error FriendErr.selfRequest :=
  ⟨c5_self_request_rejected demoUsers [] "alice@x.com" "alice@x.com" uAlice rfl rfl,
   c5_self_request_rejected demoUsers [] "alice@x.com" "alice" uAlice rfl rfl⟩

/-- C6: with a resolvable sender, accept fails with the request-not-found
error when no sender-to-acting record exists (the error branch leaves
the store untouched), and when the record exists it is updated in
place under its unchanged composite key: the same key now holds the
same participants with status accepted, and every other key of the
store reads exactly as before — nothing is deleted or re-created. -/
theorem c6_accept_in_place
    (users : UserDir) (store : FriendStore) (userEmail ident : String) (uS : User)
    (hres : resolveAcceptSender users ident = some uS) :
    (GetFriendRequest store uS.Email userEmail = none →
      AcceptFriendRequest users store userEmail ident =
        Except.error FriendErr.requestNotFound) ∧
    (∀ f, GetFriendRequest store uS.Email userEmail = some f →
      AcceptFriendRequest users store userEmail ident =
        Except.ok (setDoc store (docID uS.Email userEmail) { f with Status := "accepted" }) ∧
      GetFriendRequest (setDoc store (docID uS.Email userEmail) { f with Status := "accepted" })
          uS.Email userEmail =
        some { Email := f.Email, FriendEmail := f.FriendEmail, Status := "accepted" } ∧
      ∀ i, i ≠ docID uS.Email userEmail →
        getDoc (setDoc store (docID uS.Email userEmail) { f with Status := "accepted" }) i =
          getDoc store i) := by
  constructor
  · intro hno
    unfold AcceptFriendRequest
    rw [hres]
    simp [hno]
  · intro f hget
    refine ⟨AcceptFriendRequest_eq_ok users store userEmail ident uS f hres hget, ?_, ?_⟩
    · unfold GetFriendRequest
      rw [getDoc_setDoc]
      simp
    · intro i hi
      rw [getDoc_setDoc, if_neg hi]

/-- Witness for C6: accepting with no prior record fails with the
request-not-found error, and accepting the pending alice-to-bob record
rewrites exactly that key to the accepted record. -/
theorem c6_witness :
    AcceptFriendRequest demoUsers [] "bob@x.com" "alice" =
      Except.error FriendErr.requestNotFound ∧
    AcceptFriendRequest demoUsers pendStoreAB "bob@x.com" "alice" =
      Except.ok (setDoc pendStoreAB (docID "alice@x.com" "bob@x.com") accAB) ∧
    GetFriendRequest (setDoc pendStoreAB (docID "alice@x.com" "bob@x.com") accAB)
      "alice@x.com" "bob@x.com" = some accAB :=
  ⟨(c6_accept_in_place demoUsers [] "bob@x.com" "alice" uAlice rfl).1 rfl,
   ((c6_accept_in_place demoUsers pendStoreAB "bob@x.com" "alice" uAlice rfl).2
      pendAB rfl).1,
   ((c6_accept_in_place demoUsers pendStoreAB "bob@x.com" "alice" uAlice rfl).2
      pendAB rfl).2.1⟩

/-- C7: the pending-request scan returns exactly the stored records
whose status is pending and whose recipient field is the queried
identity; a returned record whose sender field is also that identity
can only be a degenerate self-record (sender equal to recipient), so no
pending request the identity sent to someone else is ever returned; and
the service-level listing holds exactly the public summaries of the
resolvable senders of those records. -/
theorem c7_pending_directed_at_identity
    (users : UserDir) (store : FriendStore) (userEmail : String) :
    (∀ f, f ∈ GetPendingFriendRequestsRepo store userEmail ↔
      (f ∈ store.map (fun e => e.2) ∧ f.FriendEmail = userEmail ∧ f.Status = "pending")) ∧
    (∀ f, f ∈ GetPendingFriendRequestsRepo store userEmail →
      f.Email = userEmail → f.FriendEmail = userEmail) ∧
    (∀ s, s ∈ GetPendingFriendRequests users store userEmail ↔
      ∃ f, f ∈ GetPendingFriendRequestsRepo store userEmail ∧
        ∃ u, GetUserByEmail users f.Email = some u ∧
          s = { Username := u.Username, Email := u.Email, Country := u.Country,
                City := u.City }) := by
  refine ⟨?_, ?_, ?_⟩
  · intro f
    simp [GetPendingFriendRequestsRepo, List.mem_filter, Bool.and_eq_true, beq_iff_eq]
  · intro f hf _
    exact (((by
      simpa [GetPendingFriendRequestsRepo, List.mem_filter, Bool.and_eq_true, beq_iff_eq]
        using hf) : f ∈ store.map (fun e => e.2) ∧ f.FriendEmail = userEmail ∧
        f.Status = "pending")).2.1
  · intro s
    simp only [GetPendingFriendRequests, List.mem_filterMap, Option.map_eq_some']
    constructor
    · rintro ⟨f, hf, u, hu, hs⟩
      exact ⟨f, hf, u, hu, hs.symm⟩
    · rintro ⟨f, hf, u, hu, hs⟩
      exact ⟨f, hf, u, hu, hs.symm⟩

/-- Witness for C7: for the store holding the pending alice-to-bob
record, the pending list of bob contains the public summary of alice. -/
theorem c7_witness :
    ({ Username := "alice", Email := "alice@x.com", Country := "NO",
       City := "Oslo" } : UserSummary)
      ∈ GetPendingFriendRequests demoUsers pendStoreAB "bob@x.com" :=
  ((c7_pending_directed_at_identity demoUsers pendStoreAB "bob@x.com").2.2 _).mpr
    ⟨pendAB, by decide, uAlice, rfl, rfl⟩

/-- C8: a successful send from A to B followed by a successful decline
by B naming the sender A leaves no record for the ordered pair (A, B) —
declining deletes the pending record rather than marking it — so an
immediately following identical send by A succeeds again and recreates
the pending record. -/
theorem c8_decline_allows_resend
    (users : UserDir) (store : FriendStore) (uA uB : User) (idB idA : String)
    (s1 s2 : FriendStore)
    (hne : uA.Email ≠ uB.Email)
    (hresB : resolveSendTarget users idB = some uB)
    (hresA : GetUserByUsername users idA = some uA)
    (hsend : SendFriendRequest users store uA.Email idB = Except.ok s1)
    (hdec : DeclineFriendRequest users s1 uB.Email idA = Except.ok s2) :
    GetFriendRequest s2 uA.Email uB.Email = none ∧
    SendFriendRequest users s2 uA.Email idB =
      Except.ok (setDoc s2 (docID uA.Email uB.Email)
        { Email := uA.Email, FriendEmail := uB.Email, Status := "pending" }) := by
  have hb : (uA.Email == uB.Email) = false := beq_eq_false_iff_ne.mpr hne
  unfold SendFriendRequest at hsend
  rw [hresB] at hsend
  simp only [hb, Bool.false_eq_true, if_false] at hsend
  cases hget : GetFriendRequest store uA.Email uB.Email with
  | some f =>
    rw [hget] at hsend
    exact Except.noConfusion hsend
  | none =>
    rw [hget] at hsend
    have hs1 : s1 = CreateFriendRequest store
        { Email := uA.Email, FriendEmail := uB.Email, Status := "pending" } :=
      (Except.ok.inj hsend).symm
    subst hs1
    unfold DeclineFriendRequest at hdec
    rw [hresA] at hdec
    have hs2 : s2 = DeleteFriendRequest (CreateFriendRequest store
        { Email := uA.Email, FriendEmail := uB.Email, Status := "pending" })
        uA.Email uB.Email :=
      (Except.ok.inj hdec).symm
    subst hs2
    have hnone : GetFriendRequest (DeleteFriendRequest (CreateFriendRequest store
        { Email := uA.Email, FriendEmail := uB.Email, Status := "pending" })
        uA.Email uB.Email) uA.Email uB.Email = none := by
      unfold GetFriendRequest DeleteFriendRequest
      rw [getDoc_deleteDoc]
      simp
    exact ⟨hnone, SendFriendRequest_eq_ok users _ uA.Email idB uB hresB hne hnone⟩

/-- Witness for C8: alice sends to bob on the empty store, bob declines
naming alice by handle, leaving the empty store with no alice-to-bob
record, and the repeated send succeeds. -/
theorem c8_witness :
    GetFriendRequest (DeleteFriendRequest pendStoreAB "alice@x.com" "bob@x.com")
      "alice@x.com" "bob@x.com" = none ∧
    SendFriendRequest demoUsers (DeleteFriendRequest pendStoreAB "alice@x.com" "bob@x.com")
      "alice@x.com" "bob" =
      Except.ok (setDoc (DeleteFriendRequest pendStoreAB "alice@x.com" "bob@x.com")
        (docID "alice@x.com" "bob@x.com")
        { Email := "alice@x.com", FriendEmail := "bob@x.com", Status := "pending" }) :=
  c8_decline_allows_resend demoUsers [] uAlice uBob "bob" "alice" pendStoreAB
    (DeleteFriendRequest pendStoreAB "alice@x.com" "bob@x.com")
    (by decide) rfl rfl rfl rfl

/-- C9: accept never inspects the status of the record it finds: with a
resolvable sender, it succeeds whenever any acting-pair record exists —
whatever its status, in particular an already accepted one, which it
overwrites with status accepted again — and it fails exactly when the
record is absent (request-not-found) or the sender identifier is
unresolvable (user-not-found). -/
theorem c9_accept_ignores_status
    (users : UserDir) (store : FriendStore) (userEmail ident : String) :
    (∀ uS f, resolveAcceptSender users ident = some uS →
      GetFriendRequest store uS.Email userEmail = some f →
      AcceptFriendRequest users store userEmail ident =
        Except.ok (setDoc store (docID uS.Email userEmail) { f with Status := "accepted" })) ∧
    (∀ uS, resolveAcceptSender users ident = some uS →
      GetFriendRequest store uS.Email userEmail = none →
      AcceptFriendRequest users store userEmail ident =
        Except.error FriendErr.requestNotFound) ∧
    (resolveAcceptSender users ident = none →
      AcceptFriendRequest users store userEmail ident =
        Except.error FriendErr.userNotFound) := by
  refine ⟨?_, ?_, ?_⟩
  · intro uS f hres hget
    exact AcceptFriendRequest_eq_ok users store userEmail ident uS f hres hget
  · intro uS hres hno
    unfold AcceptFriendRequest
    rw [hres]
    simp [hno]
  · intro hres
    unfold AcceptFriendRequest
    rw [hres]

/-- Witness for C9: bob accepting alice again, over the store that
already holds the accepted alice-to-bob record, succeeds and leaves the
record accepted. -/
theorem c9_witness :
    AcceptFriendRequest demoUsers accStoreAB "bob@x.com" "alice" =
      Except.ok (setDoc accStoreAB (docID "alice@x.com" "bob@x.com") accAB) :=
  (c9_accept_ignores_status demoUsers accStoreAB "bob@x.com" "alice").1 uAlice accAB rfl rfl

/-- C10: with a resolvable sender handle, decline unconditionally
deletes whatever document sits under the sender-to-acting key —
regardless of its status, so it deletes an accepted friendship stored
in that direction just as it deletes a pending request — and succeeds
also when no such document exists; afterwards no sender-to-acting
record remains. -/
theorem c10_decline_unconditional_delete
    (users : UserDir) (store : FriendStore) (userEmail ident : String) (uS : User)
    (hres : GetUserByUsername users ident = some uS) :
    DeclineFriendRequest users store userEmail ident =
      Except.ok (DeleteFriendRequest store uS.Email userEmail) ∧
    GetFriendRequest (DeleteFriendRequest store uS.Email userEmail) uS.Email userEmail =
      none := by
  constructor
  · unfold DeclineFriendRequest
    rw [hres]
  · unfold GetFriendRequest DeleteFriendRequest
    rw [getDoc_deleteDoc]
    simp

/-- Witness for C10: bob declining alice deletes the accepted
friendship record alice-to-bob, and declining again on the now empty
store still succeeds. -/
theorem c10_witness :
    (DeclineFriendRequest demoUsers accStoreAB "bob@x.com" "alice" =
      Except.ok (DeleteFriendRequest accStoreAB "alice@x.com" "bob@x.com") ∧
     GetFriendRequest (DeleteFriendRequest accStoreAB "alice@x.com" "bob@x.com")
       "alice@x.com" "bob@x.com" = none) ∧
    (DeclineFriendRequest demoUsers [] "bob@x.com" "alice" =
      Except.ok (DeleteFriendRequest [] "alice@x.com" "bob@x.com") ∧
     GetFriendRequest (DeleteFriendRequest [] "alice@x.com" "bob@x.com")
       "alice@x.com" "bob@x.com" = none) :=
  ⟨c10_decline_unconditional_delete demoUsers accStoreAB "bob@x.com" "alice" uAlice rfl,
   c10_decline_unconditional_delete demoUsers [] "bob@x.com" "alice" uAlice rfl⟩

end DailyVerse
